import Mathlib

/-!
Verification of the layout-sizing and question-generation core of the
times-table worksheet application (`src/app.js`).

The development shallowly embeds the arithmetic core of the program:

* `calculateOptimalLayout` — the print (PDF) layout engine;
* `updatePresentationColumns`, `calculatePresentationLayout` — the
  presentation (full-screen) layout engine;
* `pickRandom`, `randomInt`, `generateQuestion`, `generateWorksheet` — the
  question generator, with the random draws of `Math.random()` made explicit
  parameters in `[0,1)`;
* `renderPdfPage`, `downloadWorksheetPdfPages` — the placement logic of the
  PDF exporter (which cell of which column each question is painted in).

Real-number quantities are modelled as rationals.  JavaScript `Math.round`
rounds half-up, which coincides with Mathlib `round` on `ℚ`.  The one
non-rational expression of the source, the power-law base font size
`maxFontSize - fontRange * Math.pow((questionCount-1)/98, 0.7)`, is an
irrational-valued term; it is modelled as an explicit parameter
`fontSizeRaw` of `calculateOptimalLayout`, and every theorem about the
print layout below holds for all values of that parameter, because the
source clamps it before use.
-/

namespace TimesTable

/- Page geometry constants of `calculateOptimalLayout` (A4 portrait). -/

/-- Page height in mm (A4 portrait), from `calculateOptimalLayout`. -/
def pageHeight : ℚ := 297

/-- Page width in mm (A4 portrait), from `calculateOptimalLayout`. -/
def pageWidth : ℚ := 210

/-- Page margin in mm, from `calculateOptimalLayout`. -/
def margin : ℚ := 15

/-- Baseline of the title, `margin + 8`. -/
def titleY : ℚ := margin + 8

/-- Height reserved for the title block. -/
def titleHeight : ℚ := 12

/-- Gap between the title block and the first question row. -/
def titleGap : ℚ := 5

/-- First question baseline, `titleY + titleHeight + titleGap` (= 40). -/
def startY : ℚ := titleY + titleHeight + titleGap

/-- Lowest usable baseline, `pageHeight - margin` (= 282). -/
def maxY : ℚ := pageHeight - margin

/-- Vertical space available for questions, `maxY - startY` (= 242). -/
def usableHeight : ℚ := maxY - startY

/-- Step 1 of `calculateOptimalLayout` (src/app.js): the column count as a
function of the question count, transcribed branch by branch. -/
def layoutColumns (questionCount : ℕ) : ℕ :=
  if questionCount ≤ 5 then 1
  else if questionCount ≤ 10 then 2
  else if questionCount ≤ 20 then 2
  else if questionCount ≤ 33 then 3
  else if questionCount ≤ 50 then 3
  else if questionCount ≤ 66 then 3
  else if questionCount % 3 = 0 ∨ 90 ≤ questionCount then 3
  else 4

/-- Step 2 of `calculateOptimalLayout`: `Math.ceil(questionCount / columns)`,
expressed as the ceiling division of naturals. -/
def questionsPerColumn (questionCount : ℕ) : ℕ :=
  (questionCount + layoutColumns questionCount - 1) / layoutColumns questionCount

/-- Step 3 of `calculateOptimalLayout`: `usableHeight / questionsPerColumn`. -/
def rawLineHeight (questionCount : ℕ) : ℚ :=
  usableHeight / (questionsPerColumn questionCount : ℚ)

/-- Minimum readable font size in mm (`minFontSize` in the source). -/
def minFontSize : ℚ := 9.5

/-- Maximum font size in mm (`maxFontSize` in the source). -/
def maxFontSize : ℚ := 20

/-- Steps 5 and 6 of `calculateOptimalLayout`: cap the raw font size at 85%
of the line height, then clamp it into `[minFontSize, maxFontSize]`.
`fontSizeRaw` stands for the power-law base font size of step 4 (a
non-integer power, see the module docstring). -/
def clampedFontSize (questionCount : ℕ) (fontSizeRaw : ℚ) : ℚ :=
  max minFontSize
    (min maxFontSize (min fontSizeRaw (rawLineHeight questionCount * 0.85)))

/-- Step 7 of `calculateOptimalLayout`: line-height floors for small counts. -/
def finalLineHeight (questionCount : ℕ) : ℚ :=
  if questionCount ≤ 5 then max (rawLineHeight questionCount) 15
  else if questionCount ≤ 10 then max (rawLineHeight questionCount) 12
  else rawLineHeight questionCount

/-- Rounding to one decimal place, `Math.round(x * 10) / 10`.  JavaScript
`Math.round` rounds half-up, exactly as Mathlib `round` on `ℚ`. -/
def roundTenth (x : ℚ) : ℚ := (round (x * 10) : ℚ) / 10

/-- Layout plan returned by the print layout engine. -/
structure LayoutPlan where
  columns : ℕ
  fontSize : ℚ
  lineHeight : ℚ
  deriving Repr, DecidableEq

/-- Embedding of `calculateOptimalLayout` (src/app.js).  `fontSizeRaw` is the
value of the step-4 power-law expression
`maxFontSize - fontRange * Math.pow((questionCount-1)/98, 0.7)`; every
theorem below is proved for all values of this parameter. -/
def calculateOptimalLayout (questionCount : ℕ) (fontSizeRaw : ℚ) : LayoutPlan :=
  { columns := layoutColumns questionCount
    fontSize := roundTenth (clampedFontSize questionCount fontSizeRaw)
    lineHeight := roundTenth (finalLineHeight questionCount) }

/-- Column-count step function transcribed from the words of the spec
(section 4.2, step 1), to be compared with `layoutColumns`: 1 column for
counts up to 5; 2 for 6 to 20; 3 for 21 to 66 and, in 67 to 99, whenever the
count is divisible by 3 or at least 90; otherwise 4. -/
def specPrintColumns (n : ℕ) : ℕ :=
  if n ≤ 5 then 1
  else if n ≤ 20 then 2
  else if n ≤ 66 then 3
  else if n % 3 = 0 ∨ 90 ≤ n then 3
  else 4

/- Presentation-mode layout engine (current revision of src/app.js). -/

/-- Minimum presentation font size in px (`PRESENTATION_MIN_FONT_PX`). -/
def presentationMinFontPx : ℚ := 18

/-- Maximum presentation font size in px (`PRESENTATION_MAX_FONT_PX`). -/
def presentationMaxFontPx : ℚ := 44

/-- Embedding of `updatePresentationColumns` (src/app.js): column count for
presentation mode, transcribed branch by branch. -/
def updatePresentationColumns (questionCount : ℕ) : ℕ :=
  if 1 ≤ questionCount ∧ questionCount ≤ 9 then 3
  else if 10 ≤ questionCount ∧ questionCount ≤ 20 then 4
  else if 21 ≤ questionCount ∧ questionCount ≤ 40 then 5
  else 5

/-- Font-size tiers of `calculatePresentationLayout` (src/app.js). -/
def presentationBaseFontSize (questionCount : ℕ) : ℚ :=
  if questionCount ≤ 12 then 40
  else if questionCount ≤ 24 then 32
  else if questionCount ≤ 40 then 26
  else if questionCount ≤ 60 then 22
  else 18

/-- Layout returned by the presentation layout engine: a column count and a
rounded pixel font size. -/
structure PresentationLayout where
  columns : ℕ
  fontSizePx : ℤ
  deriving Repr, DecidableEq

/-- Embedding of `calculatePresentationLayout` (src/app.js).  The source
reads `window.innerHeight`; it is passed here as the explicit argument
`innerHeight`. -/
def calculatePresentationLayout (questionCount : ℕ) (innerHeight : ℚ) :
    PresentationLayout :=
  let columns := updatePresentationColumns questionCount
  let baseFont := presentationBaseFontSize questionCount
  let maxAllowed := min presentationMaxFontPx (innerHeight / 18)
  let fontSize := max presentationMinFontPx (min baseFont maxAllowed)
  { columns := columns, fontSizePx := round fontSize }

/- Question generator.  Each call to `Math.random()` is modelled as an
explicit rational parameter; the platform guarantees those values lie in
`[0,1)`, which the theorems below take as hypotheses. -/

/-- Kind of a generated question (`type` field in the source). -/
inductive QuestionType where
  | multiplication
  | division
  deriving Repr, DecidableEq, Inhabited

/-- Question record produced by `generateQuestion` (src/app.js). -/
structure Question where
  type : QuestionType
  base : ℤ
  other : ℤ
  questionText : String
  answer : ℤ
  deriving Repr, DecidableEq, Inhabited

/-- JavaScript array indexing `array[i]`: `undefined` outside the bounds,
modelled as `none`. -/
def elemAt (array : List ℤ) (index : ℤ) : Option ℤ :=
  if 0 ≤ index ∧ index < (array.length : ℤ) then array[index.toNat]? else none

/-- Embedding of `pickRandom` (src/app.js):
`array[Math.floor(Math.random() * array.length)]`, with the random draw `r`
explicit. -/
def pickRandom (array : List ℤ) (r : ℚ) : Option ℤ :=
  elemAt array ⌊r * (array.length : ℚ)⌋

/-- Embedding of `randomInt` (src/app.js):
`Math.floor(Math.random() * (max - min + 1)) + min`. -/
def randomInt (lo hi : ℤ) (r : ℚ) : ℤ :=
  ⌊r * ((hi : ℚ) - (lo : ℚ) + 1)⌋ + lo

/-- Embedding of `generateQuestion` (src/app.js).  `r1` drives the table
pick, `r2` the operand pick, `r3` the division coin flip.  The JavaScript
function would propagate `undefined` on an out-of-bounds table pick; this is
modelled by returning `none`. -/
def generateQuestion (selectedTables : List ℤ) (includeDivision : Bool)
    (r1 r2 r3 : ℚ) : Option Question :=
  match pickRandom selectedTables r1 with
  | none => none
  | some base =>
      let other := randomInt 1 12 r2
      if includeDivision = true ∧ r3 < 1/2 then
        let product := base * other
        some { type := QuestionType.division, base := base, other := other
               questionText := toString product ++ " ÷ " ++ toString base ++ " = ______"
               answer := other }
      else
        some { type := QuestionType.multiplication, base := base, other := other
               questionText := toString base ++ " × " ++ toString other ++ " = ______"
               answer := base * other }

/-- Embedding of the generation loop of `generateWorksheet` (src/app.js):
one question per random-draw triple, collected in order. -/
def generateWorksheet (selectedTables : List ℤ) (includeDivision : Bool) :
    List (ℚ × ℚ × ℚ) → Option (List Question)
  | [] => some []
  | d :: rest =>
      match generateQuestion selectedTables includeDivision d.1 d.2.1 d.2.2 with
      | none => none
      | some q =>
          match generateWorksheet selectedTables includeDivision rest with
          | none => none
          | some qs => some (q :: qs)

/- PDF exporter placement model (current revision of src/app.js:
`downloadWorksheetPdf` / `renderPdfPage`).  Only the placement decisions are
modelled: which question index is painted in which column and row, and with
which text.  Horizontal coordinates, wrapping of overlong lines
(`splitTextToSize`, an external jsPDF facility) and colors are outside the
model; each question is taken to occupy a single line, which is what the
vertical bookkeeping of the source assumes between questions. -/

/-- One painted question cell of a PDF page. -/
structure PaintedCell where
  questionIndex : ℕ
  col : ℕ
  row : ℕ
  text : String
  deriving Repr, DecidableEq

/-- Text of one painted line, from `renderPdfPage` (src/app.js): question
number, bracket, spacing (doubled for two-digit numbers), then either the
blank template or the template with the blank replaced by the answer. -/
def questionLine (q : Question) (number : ℕ) (showAnswers : Bool) : String :=
  let spacing := if 10 ≤ number then "  " else " "
  if showAnswers then
    toString number ++ ")" ++ spacing ++
      q.questionText.replace "______" "" ++ toString q.answer
  else
    toString number ++ ")" ++ spacing ++ q.questionText

/-- Embedding of the placement loops of `renderPdfPage` (src/app.js).  For
each column the row loop runs until either the question indices are
exhausted (`questionIndex >= questions.length`) or the running baseline
would overflow (`yPosition > maxY - lineSpacing`); both exits are `break`
statements, so the rows of a column are the longest prefix on which both
checks pass — a `takeWhile`.  The baseline of row `i` is
`startY + i * lineSpacing`. -/
def renderPdfPage (questions : List Question) (columns qpc : ℕ)
    (lineSpacing : ℚ) (showAnswers : Bool) : List PaintedCell :=
  (List.range columns).flatMap (fun col =>
    ((List.range qpc).takeWhile (fun i =>
        decide (col * qpc + i < questions.length) &&
        decide (startY + i * lineSpacing ≤ maxY - lineSpacing))).map (fun i =>
      { questionIndex := col * qpc + i, col := col, row := i
        text := questionLine (questions.getD (col * qpc + i) default)
          (col * qpc + i + 1) showAnswers }))

/-- Embedding of `downloadWorksheetPdf` (src/app.js): compute the layout,
derive the questions-per-column count, then paint page 1 with blanks and
page 2 with answers using the same geometry.  `fontSizeRaw` is the print
layout's power-law font parameter (see `calculateOptimalLayout`); the
placement does not depend on it. -/
def downloadWorksheetPdfPages (questions : List Question) (fontSizeRaw : ℚ) :
    List PaintedCell × List PaintedCell :=
  let layout := calculateOptimalLayout questions.length fontSizeRaw
  let qpc := (questions.length + layout.columns - 1) / layout.columns
  (renderPdfPage questions layout.columns qpc layout.lineHeight false,
   renderPdfPage questions layout.columns qpc layout.lineHeight true)

/-- Concrete multiplication question used in the concrete evaluations of the
PDF placement model (placement depends only on the number of questions). -/
def sampleQuestion : Question :=
  { type := QuestionType.multiplication, base := 2, other := 3
    questionText := "2 × 3 = ______", answer := 6 }

/-- Question produced by `generateQuestion [2, 5, 10] true 0 0 0`: the draws
`r1 = r2 = r3 = 0` pick table 2, operand 1 and the division branch. -/
def sampleDivisionQuestion : Question :=
  { type := QuestionType.division, base := 2, other := 1
    questionText := "2 ÷ 2 = ______", answer := 1 }

/- Helper lemmas. -/

theorem round_le_round {x y : ℚ} (h : x ≤ y) : round x ≤ round y := by
  rw [round_eq, round_eq]
  exact Int.floor_mono (by linarith)

theorem roundTenth_mono {x y : ℚ} (h : x ≤ y) : roundTenth x ≤ roundTenth y := by
  unfold roundTenth
  have hr : round (x * 10) ≤ round (y * 10) := round_le_round (by linarith)
  have hr' : ((round (x * 10) : ℤ) : ℚ) ≤ ((round (y * 10) : ℤ) : ℚ) := by
    exact_mod_cast hr
  linarith

theorem roundTenth_minFont : roundTenth minFontSize = minFontSize := by
  norm_num [roundTenth, minFontSize, round_eq]

theorem roundTenth_maxFont : roundTenth maxFontSize = maxFontSize := by
  norm_num [roundTenth, maxFontSize, round_eq]

theorem roundTenth_pos {x : ℚ} (h : 1 ≤ x) : 0 < roundTenth x := by
  unfold roundTenth
  have h10 : (10 : ℚ) ≤ x * 10 := by linarith
  have hz : (10 : ℤ) ≤ round (x * 10) := by
    rw [round_eq]
    exact Int.le_floor.mpr (by norm_num; linarith)
  have hq : (10 : ℚ) ≤ ((round (x * 10) : ℤ) : ℚ) := by exact_mod_cast hz
  linarith

theorem int_le_round {z : ℤ} {x : ℚ} (h : (z : ℚ) ≤ x) : z ≤ round x := by
  rw [round_eq]
  exact Int.le_floor.mpr (by linarith)

theorem usableHeight_eq : usableHeight = 242 := by
  norm_num [usableHeight, maxY, startY, titleY, titleHeight, titleGap, pageHeight,
    margin]

/-- Bounded facts about the print layout, all decidable over the counts
1..99: the questions-per-column value is positive and at most 99, the column
count is one of 1, 2, 3, 4, and it agrees with the step function of the
spec. -/
theorem layout_nat_facts : ∀ n : ℕ, n ≤ 99 → 1 ≤ n →
    0 < questionsPerColumn n ∧ questionsPerColumn n ≤ 99 ∧
    (layoutColumns n = 1 ∨ layoutColumns n = 2 ∨ layoutColumns n = 3 ∨
      layoutColumns n = 4) ∧
    layoutColumns n = specPrintColumns n := by decide

theorem finalLineHeight_ge_one {n : ℕ} (h1 : 1 ≤ n) (h2 : n ≤ 99) :
    1 ≤ finalLineHeight n := by
  obtain ⟨hpos, hle, -, -⟩ := layout_nat_facts n h2 h1
  unfold finalLineHeight
  split_ifs
  · exact le_trans (by norm_num) (le_max_right _ _)
  · exact le_trans (by norm_num) (le_max_right _ _)
  · rw [rawLineHeight, usableHeight_eq]
    have hq0 : (0 : ℚ) < (questionsPerColumn n : ℚ) := by exact_mod_cast hpos
    rw [le_div_iff₀ hq0]
    have hq99 : (questionsPerColumn n : ℚ) ≤ 99 := by exact_mod_cast hle
    linarith

/-- C1: the print layout column count is exactly the step function of the
spec for every question count in 1..99 — 1 column for counts up to 5, 2 for
6 to 20, 3 for 21 to 66, and in 67..99 it is 3 when the count is divisible
by 3 or at least 90, otherwise 4 — with the listed boundary values 5, 6, 20,
21, 66, 67, 69, 90 mapping to 1, 2, 2, 3, 3, 4, 3, 3. -/
theorem print_columns_step_function :
    (∀ (n : ℕ) (fontSizeRaw : ℚ), 1 ≤ n → n ≤ 99 →
      (calculateOptimalLayout n fontSizeRaw).columns = specPrintColumns n) ∧
    specPrintColumns 5 = 1 ∧ specPrintColumns 6 = 2 ∧ specPrintColumns 20 = 2 ∧
    specPrintColumns 21 = 3 ∧ specPrintColumns 66 = 3 ∧ specPrintColumns 67 = 4 ∧
    specPrintColumns 69 = 3 ∧ specPrintColumns 90 = 3 := by
  refine ⟨?_, by decide, by decide, by decide, by decide, by decide, by decide,
    by decide, by decide⟩
  intro n f h1 h2
  exact (layout_nat_facts n h2 h1).2.2.2

/-- Witness for C1 at question count 69. -/
theorem print_columns_step_function_witness :
    1 ≤ 69 ∧ 69 ≤ 99 ∧ (calculateOptimalLayout 69 7).columns = specPrintColumns 69 :=
  ⟨by decide, by decide, print_columns_step_function.1 69 7 (by decide) (by decide)⟩

/-- C2: the print layout is total and bounded on 1..99: for every question
count and every value of the power-law font parameter, the returned plan has
a column count in 1..4, a font size between 9.5 mm and 20 mm, and a strictly
positive line height. -/
theorem print_layout_total_and_bounded :
    ∀ (n : ℕ) (fontSizeRaw : ℚ), 1 ≤ n → n ≤ 99 →
      ((calculateOptimalLayout n fontSizeRaw).columns = 1 ∨
       (calculateOptimalLayout n fontSizeRaw).columns = 2 ∨
       (calculateOptimalLayout n fontSizeRaw).columns = 3 ∨
       (calculateOptimalLayout n fontSizeRaw).columns = 4) ∧
      9.5 ≤ (calculateOptimalLayout n fontSizeRaw).fontSize ∧
      (calculateOptimalLayout n fontSizeRaw).fontSize ≤ 20 ∧
      0 < (calculateOptimalLayout n fontSizeRaw).lineHeight := by
  intro n f h1 h2
  obtain ⟨-, -, hcols, -⟩ := layout_nat_facts n h2 h1
  refine ⟨hcols, ?_, ?_, ?_⟩
  · show (9.5 : ℚ) ≤ roundTenth (clampedFontSize n f)
    have hlb : roundTenth minFontSize ≤ roundTenth (clampedFontSize n f) :=
      roundTenth_mono (le_max_left _ _)
    rw [roundTenth_minFont] at hlb
    exact le_trans (by norm_num [minFontSize]) hlb
  · show roundTenth (clampedFontSize n f) ≤ (20 : ℚ)
    have hub : clampedFontSize n f ≤ maxFontSize := by
      unfold clampedFontSize
      exact max_le (by norm_num [minFontSize, maxFontSize]) (min_le_left _ _)
    have h' := roundTenth_mono hub
    rw [roundTenth_maxFont] at h'
    exact le_trans h' (by norm_num [maxFontSize])
  · show (0 : ℚ) < roundTenth (finalLineHeight n)
    exact roundTenth_pos (finalLineHeight_ge_one h1 h2)

/-- Witness for C2 at question count 50. -/
theorem print_layout_total_and_bounded_witness :
    1 ≤ 50 ∧ 50 ≤ 99 ∧
    (((calculateOptimalLayout 50 3).columns = 1 ∨
      (calculateOptimalLayout 50 3).columns = 2 ∨
      (calculateOptimalLayout 50 3).columns = 3 ∨
      (calculateOptimalLayout 50 3).columns = 4) ∧
     9.5 ≤ (calculateOptimalLayout 50 3).fontSize ∧
     (calculateOptimalLayout 50 3).fontSize ≤ 20 ∧
     0 < (calculateOptimalLayout 50 3).lineHeight) :=
  ⟨by decide, by decide, print_layout_total_and_bounded 50 3 (by decide) (by decide)⟩

/-- C3 counterexample: at question count 64 (3 columns, 22 rows, line height
11 mm) the 85% cap would put the font at 9.35 mm, below the absolute minimum
of 9.5 mm; the subsequent clamp to that minimum wins, so the returned font
size 9.5 exceeds 85% of the returned line height.  The value 12.3 stands for
the power-law font term; the outcome is the same for every value, because
`min fontSizeRaw 9.35` never exceeds 9.35 (see `font_cap_amended`). -/
theorem font_cap_counterexample :
    ¬ ((calculateOptimalLayout 64 (123 / 10)).fontSize ≤
        0.85 * (calculateOptimalLayout 64 (123 / 10)).lineHeight) := by
  norm_num [calculateOptimalLayout, clampedFontSize, finalLineHeight,
    rawLineHeight, questionsPerColumn, layoutColumns, usableHeight, maxY, startY,
    titleY, titleHeight, titleGap, pageHeight, margin, minFontSize, maxFontSize,
    roundTenth, round_eq, max_def, min_def]

/-- C3 amended: for every question count in 1..99 and every value of the
power-law font term, the returned font size is at most the one-decimal
rounding of `max minFontSize (0.85 * lineHeight)` — that is, the 85% cap
holds except that the clamp to the absolute minimum may override it: when
85% of the raw line height falls below 9.5 mm, the returned font size is
exactly 9.5 mm (and then exceeds 85% of the line height, as at count 64). -/
theorem font_cap_amended :
    ∀ (n : ℕ) (fontSizeRaw : ℚ), 1 ≤ n → n ≤ 99 →
      (calculateOptimalLayout n fontSizeRaw).fontSize ≤
        roundTenth (max minFontSize (rawLineHeight n * 0.85)) ∧
      (rawLineHeight n * 0.85 < minFontSize →
        (calculateOptimalLayout n fontSizeRaw).fontSize = minFontSize) := by
  intro n f h1 h2
  constructor
  · show roundTenth (clampedFontSize n f) ≤ _
    apply roundTenth_mono
    unfold clampedFontSize
    refine max_le_max (le_refl _) ?_
    exact le_trans (min_le_right _ _) (min_le_right _ _)
  · intro hx
    show roundTenth (clampedFontSize n f) = minFontSize
    have hcl : clampedFontSize n f = minFontSize := by
      unfold clampedFontSize
      have h3 : min f (rawLineHeight n * 0.85) < minFontSize :=
        lt_of_le_of_lt (min_le_right _ _) hx
      have h4 : min maxFontSize (min f (rawLineHeight n * 0.85)) < minFontSize :=
        lt_of_le_of_lt (min_le_right _ _) h3
      exact max_eq_left (le_of_lt h4)
    rw [hcl, roundTenth_minFont]

/-- Witness for the amended C3 at question count 64. -/
theorem font_cap_amended_witness :
    1 ≤ 64 ∧ 64 ≤ 99 ∧
    ((calculateOptimalLayout 64 (123 / 10)).fontSize ≤
        roundTenth (max minFontSize (rawLineHeight 64 * 0.85)) ∧
      (rawLineHeight 64 * 0.85 < minFontSize →
        (calculateOptimalLayout 64 (123 / 10)).fontSize = minFontSize)) :=
  ⟨by decide, by decide, font_cap_amended 64 (123 / 10) (by decide) (by decide)⟩

/-- Painted positions of a PDF page do not depend on `showAnswers`: mapping
each painted cell to its (question index, column, row) triple yields the
same bare placement list for the blanks page and the answers page. -/
theorem renderPdfPage_positions (qs : List Question) (cols qpc : ℕ) (L : ℚ)
    (b : Bool) :
    (renderPdfPage qs cols qpc L b).map (fun c => (c.questionIndex, c.col, c.row)) =
      (List.range cols).flatMap (fun col =>
        ((List.range qpc).takeWhile (fun i =>
            decide (col * qpc + i < qs.length) &&
            decide (startY + i * L ≤ maxY - L))).map
          (fun i => (col * qpc + i, col, i))) := by
  simp only [renderPdfPage, List.map_flatMap, List.map_map]
  rfl

/-- C4: evaluation at the failing input.  With 6 questions the layout is 2
columns of 3 rows with line height `242/3` rounded UP to 80.7 mm, so the
baseline of the third row, `40 + 2 * 80.7 = 201.4`, exceeds
`maxY - lineSpacing = 282 - 80.7 = 201.3` and the overflow-skip branch of
`renderPdfPage` fires: each page paints only 4 of the 6 questions
(indices 0, 1, 3, 4), contradicting both the claim and the source's own
comment that the overflow check "shouldn't happen with proper calculation".
The statement is quantified over the power-law font parameter because the
placement does not depend on it. -/
theorem pdf_overflow_questions_dropped :
    ∀ fontSizeRaw : ℚ,
      (List.replicate 6 sampleQuestion).length = 6 ∧
      (downloadWorksheetPdfPages (List.replicate 6 sampleQuestion)
        fontSizeRaw).1.length = 4 ∧
      (downloadWorksheetPdfPages (List.replicate 6 sampleQuestion)
        fontSizeRaw).2.length = 4 := by
  intro f
  refine ⟨rfl, ?_, ?_⟩ <;>
    norm_num [downloadWorksheetPdfPages, renderPdfPage, calculateOptimalLayout,
      finalLineHeight, rawLineHeight, questionsPerColumn, layoutColumns,
      usableHeight, maxY, startY, titleY, titleHeight, titleGap, pageHeight,
      margin, roundTenth, round_eq, max_def, min_def, List.range_succ,
      List.takeWhile]

/-- C9 counterexample: at 6 questions the first (blanks) page paints exactly
the question indices 0, 1, 3 and 4 — questions 2 and 5 (the third row of
each column) are never placed, so the exporter does not place question `i`
at column `i / questionsPerColumn`, row `i % questionsPerColumn` for every
`i`.  The font parameter 0 is irrelevant to placement. -/
theorem pdf_placement_counterexample :
    ((downloadWorksheetPdfPages (List.replicate 6 sampleQuestion) 0).1.map
      (fun c => c.questionIndex)) = [0, 1, 3, 4] := by
  norm_num [downloadWorksheetPdfPages, renderPdfPage, calculateOptimalLayout,
    finalLineHeight, rawLineHeight, questionsPerColumn, layoutColumns,
    usableHeight, maxY, startY, titleY, titleHeight, titleGap, pageHeight,
    margin, roundTenth, round_eq, max_def, min_def, List.range_succ,
    List.takeWhile]

/-- C9 amended: the two PDF pages (blanks and answers) always use identical
placement geometry, and every cell that is painted holds question index
`col * questionsPerColumn + row` with `row < questionsPerColumn`, i.e. the
painted question `i` sits at column `i / questionsPerColumn`, row
`i % questionsPerColumn` (column-major); but placement is only guaranteed
for the cells that survive the overflow check — see
`pdf_placement_counterexample` for a question that is never placed. -/
theorem pdf_placement_column_major :
    ∀ (questions : List Question) (fontSizeRaw : ℚ),
      1 ≤ questions.length → questions.length ≤ 99 →
      ((downloadWorksheetPdfPages questions fontSizeRaw).2.map
          (fun c => (c.questionIndex, c.col, c.row)) =
        (downloadWorksheetPdfPages questions fontSizeRaw).1.map
          (fun c => (c.questionIndex, c.col, c.row))) ∧
      (∀ c ∈ (downloadWorksheetPdfPages questions fontSizeRaw).1,
        c.questionIndex < questions.length ∧
        c.col = c.questionIndex / questionsPerColumn questions.length ∧
        c.row = c.questionIndex % questionsPerColumn questions.length) := by
  intro qs f h1 h2
  have hqpc0 : 0 < questionsPerColumn qs.length := (layout_nat_facts _ h2 h1).1
  constructor
  · exact (renderPdfPage_positions qs _ _ _ true).trans
      (renderPdfPage_positions qs _ _ _ false).symm
  · intro c hc
    simp only [downloadWorksheetPdfPages, calculateOptimalLayout, renderPdfPage,
      List.mem_flatMap, List.mem_map, List.mem_range] at hc
    obtain ⟨col, hcol, i, hi, rfl⟩ := hc
    have hp := List.mem_takeWhile_imp hi
    have hir : i ∈ List.range _ := (List.takeWhile_sublist _).mem hi
    rw [List.mem_range] at hir
    have hir' : i < questionsPerColumn qs.length := hir
    simp only [Bool.and_eq_true, decide_eq_true_eq] at hp
    obtain ⟨hlt, -⟩ := hp
    refine ⟨hlt, ?_, ?_⟩
    · show col = (col * questionsPerColumn qs.length + i) /
        questionsPerColumn qs.length
      rw [Nat.mul_comm col, Nat.mul_add_div hqpc0, Nat.div_eq_of_lt hir']
      omega
    · show i = (col * questionsPerColumn qs.length + i) %
        questionsPerColumn qs.length
      rw [Nat.mul_comm col, Nat.mul_add_mod]
      exact (Nat.mod_eq_of_lt hir').symm

/-- Witness for the amended C9 on a worksheet of 6 questions. -/
theorem pdf_placement_column_major_witness :
    1 ≤ (List.replicate 6 sampleQuestion).length ∧
    (List.replicate 6 sampleQuestion).length ≤ 99 ∧
    (((downloadWorksheetPdfPages (List.replicate 6 sampleQuestion) 0).2.map
        (fun c => (c.questionIndex, c.col, c.row)) =
      (downloadWorksheetPdfPages (List.replicate 6 sampleQuestion) 0).1.map
        (fun c => (c.questionIndex, c.col, c.row))) ∧
     (∀ c ∈ (downloadWorksheetPdfPages (List.replicate 6 sampleQuestion) 0).1,
       c.questionIndex < (List.replicate 6 sampleQuestion).length ∧
       c.col = c.questionIndex /
         questionsPerColumn (List.replicate 6 sampleQuestion).length ∧
       c.row = c.questionIndex %
         questionsPerColumn (List.replicate 6 sampleQuestion).length)) :=
  ⟨by simp, by simp, pdf_placement_column_major _ 0 (by simp) (by simp)⟩

/-- C5: the presentation layout column count is the tier table of the spec:
3 columns for counts up to 9, 4 for 10 to 20, 5 from 21 on; the function is
monotonically non-decreasing with no upper rebound, and the boundary values
9, 10, 21, 100 map to 3, 4, 5, 5. -/
theorem presentation_columns_tiers :
    (∀ (n : ℕ) (innerHeight : ℚ),
      (calculatePresentationLayout n innerHeight).columns =
        updatePresentationColumns n) ∧
    (∀ n : ℕ, 1 ≤ n →
      updatePresentationColumns n =
        if n ≤ 9 then 3 else if n ≤ 20 then 4 else 5) ∧
    (∀ n m : ℕ, 1 ≤ n → n ≤ m →
      updatePresentationColumns n ≤ updatePresentationColumns m) ∧
    updatePresentationColumns 9 = 3 ∧ updatePresentationColumns 10 = 4 ∧
    updatePresentationColumns 21 = 5 ∧ updatePresentationColumns 100 = 5 := by
  refine ⟨fun n h => rfl, ?_, ?_, by decide, by decide, by decide, by decide⟩
  · intro n hn
    unfold updatePresentationColumns
    split_ifs <;> omega
  · intro n m h1 h2
    unfold updatePresentationColumns
    split_ifs <;> omega

/-- Witness for C5 at question count 10. -/
theorem presentation_columns_tiers_witness :
    1 ≤ 10 ∧
    updatePresentationColumns 10 =
      (if 10 ≤ 9 then 3 else if 10 ≤ 20 then 4 else 5) :=
  ⟨by decide, presentation_columns_tiers.2.1 10 (by decide)⟩

/-- C6: the presentation font size is
`max(absoluteMinFont, min(baseFontSize, min(absoluteMaxFont,
viewportHeight/18)))` with the absolute bounds 18 and 44, so for every
question count and every positive viewport height the returned (rounded)
font size is at least 18 px — the floor wins over the viewport-derived
ceiling, as at count 12 with viewport height 100, which yields 18 even
though `100 / 18 < 6`. -/
theorem presentation_font_floor :
    ∀ (n : ℕ) (innerHeight : ℚ), 1 ≤ n → 0 < innerHeight →
      ((calculatePresentationLayout n innerHeight).fontSizePx =
        round (max presentationMinFontPx
          (min (presentationBaseFontSize n)
            (min presentationMaxFontPx (innerHeight / 18))))) ∧
      18 ≤ (calculatePresentationLayout n innerHeight).fontSizePx ∧
      (calculatePresentationLayout 12 100).fontSizePx = 18 := by
  intro n h hn hh
  refine ⟨rfl, ?_, ?_⟩
  · show (18 : ℤ) ≤ round (max presentationMinFontPx
      (min (presentationBaseFontSize n) (min presentationMaxFontPx (h / 18))))
    refine int_le_round ?_
    simp only [presentationMinFontPx]
    push_cast
    exact le_max_left _ _
  · norm_num [calculatePresentationLayout, updatePresentationColumns,
      presentationBaseFontSize, presentationMinFontPx, presentationMaxFontPx,
      max_def, min_def, round_eq]

/-- Witness for C6 at question count 5 and viewport height 1. -/
theorem presentation_font_floor_witness :
    1 ≤ 5 ∧ (0 : ℚ) < 1 ∧
    (((calculatePresentationLayout 5 1).fontSizePx =
        round (max presentationMinFontPx
          (min (presentationBaseFontSize 5)
            (min presentationMaxFontPx ((1 : ℚ) / 18))))) ∧
      18 ≤ (calculatePresentationLayout 5 1).fontSizePx ∧
      (calculatePresentationLayout 12 100).fontSizePx = 18) :=
  ⟨by decide, zero_lt_one, presentation_font_floor 5 1 (by decide) zero_lt_one⟩

/-- C7: every question that `generateQuestion` produces satisfies the
arithmetic invariant: a multiplication question displays its base and
operand with a blank for the product and has `answer = base * operand`; a
division question displays the dividend `base * operand` and the divisor
`base` with a blank for the quotient and has `answer = operand`, so
`base * answer` equals the displayed dividend. -/
theorem question_invariant :
    ∀ (selectedTables : List ℤ) (includeDivision : Bool) (r1 r2 r3 : ℚ)
      (q : Question),
      generateQuestion selectedTables includeDivision r1 r2 r3 = some q →
      (q.type = QuestionType.multiplication →
        q.answer = q.base * q.other ∧
        q.questionText =
          toString q.base ++ " × " ++ toString q.other ++ " = ______") ∧
      (q.type = QuestionType.division →
        q.answer = q.other ∧
        q.questionText =
          toString (q.base * q.other) ++ " ÷ " ++ toString q.base ++
            " = ______" ∧
        q.base * q.answer = q.base * q.other) := by
  intro tables incDiv r1 r2 r3 q hq
  cases hpick : pickRandom tables r1 with
  | none =>
      simp only [generateQuestion, hpick] at hq
      exact Option.noConfusion hq
  | some base =>
      simp only [generateQuestion, hpick] at hq
      by_cases hdiv : incDiv = true ∧ r3 < 1 / 2
      · rw [if_pos hdiv] at hq
        injection hq with hq
        subst hq
        exact ⟨fun hty => absurd hty (by simp), fun hty => ⟨rfl, rfl, rfl⟩⟩
      · rw [if_neg hdiv] at hq
        injection hq with hq
        subst hq
        exact ⟨fun hty => ⟨rfl, rfl⟩, fun hty => absurd hty (by simp)⟩

/-- Witness for C7: the draws `0, 0, 0` over tables 2, 5, 10 with division
enabled produce the division question `2 ÷ 2 = ______` with answer 1. -/
theorem question_invariant_witness :
    generateQuestion [2, 5, 10] true 0 0 0 = some sampleDivisionQuestion ∧
    (sampleDivisionQuestion.type = QuestionType.division →
      sampleDivisionQuestion.answer = sampleDivisionQuestion.other ∧
      sampleDivisionQuestion.questionText =
        toString (sampleDivisionQuestion.base * sampleDivisionQuestion.other) ++
          " ÷ " ++ toString sampleDivisionQuestion.base ++ " = ______" ∧
      sampleDivisionQuestion.base * sampleDivisionQuestion.answer =
        sampleDivisionQuestion.base * sampleDivisionQuestion.other) :=
  have h : generateQuestion [2, 5, 10] true 0 0 0 = some sampleDivisionQuestion := by
    simp [generateQuestion, pickRandom, elemAt, randomInt, one_half_pos,
      sampleDivisionQuestion]
    rfl
  ⟨h, (question_invariant [2, 5, 10] true 0 0 0 sampleDivisionQuestion h).2⟩

/-- Bounds of the floor-scaled random index: drawing `r` in `[0,1)` and
scaling by a positive length keeps the floor inside `[0, len - 1]`. -/
theorem floor_index_bounds {len : ℕ} (hlen : 0 < len) {r : ℚ} (h0 : 0 ≤ r)
    (h1 : r < 1) : 0 ≤ ⌊r * (len : ℚ)⌋ ∧ ⌊r * (len : ℚ)⌋ < (len : ℤ) := by
  have hq : (0 : ℚ) < (len : ℚ) := by exact_mod_cast hlen
  constructor
  · exact Int.floor_nonneg.mpr (mul_nonneg h0 (le_of_lt hq))
  · rw [Int.floor_lt]
    push_cast
    calc r * (len : ℚ) < 1 * (len : ℚ) := mul_lt_mul_of_pos_right h1 hq
    _ = (len : ℚ) := one_mul _

/-- With a non-empty array and a draw in `[0,1)`, `pickRandom` returns an
element of the array. -/
theorem pickRandom_spec {tables : List ℤ} {r : ℚ} (ht : tables ≠ [])
    (h0 : 0 ≤ r) (h1 : r < 1) :
    ∃ b, pickRandom tables r = some b ∧ b ∈ tables := by
  have hlen : 0 < tables.length := List.length_pos.mpr ht
  obtain ⟨hfl0, hflt⟩ := floor_index_bounds hlen h0 h1
  have hidx : (⌊r * (tables.length : ℚ)⌋).toNat < tables.length := by omega
  refine ⟨tables[(⌊r * (tables.length : ℚ)⌋).toNat], ?_, List.getElem_mem hidx⟩
  unfold pickRandom elemAt
  rw [if_pos ⟨hfl0, hflt⟩]
  exact List.getElem?_eq_getElem hidx

/-- With a draw in `[0,1)`, `randomInt 1 12` lands in `[1, 12]`. -/
theorem randomInt_one_twelve {r : ℚ} (h0 : 0 ≤ r) (h1 : r < 1) :
    1 ≤ randomInt 1 12 r ∧ randomInt 1 12 r ≤ 12 := by
  unfold randomInt
  have h12 : (((12 : ℤ) : ℚ) - ((1 : ℤ) : ℚ) + 1) = 12 := by norm_num
  rw [h12]
  constructor
  · have hfl : 0 ≤ ⌊r * (12 : ℚ)⌋ :=
      Int.floor_nonneg.mpr (mul_nonneg h0 (by norm_num))
    omega
  · have hfl : ⌊r * (12 : ℚ)⌋ < 12 := by
      rw [Int.floor_lt]
      push_cast
      linarith
    omega

/-- With valid draws and a non-empty table list, `generateQuestion` with
division disabled produces a multiplication question with a base from the
list and an operand in `[1, 12]`. -/
theorem generateQuestion_mult_spec {tables : List ℤ} {r1 r2 : ℚ} (r3 : ℚ)
    (ht : tables ≠ []) (h10 : 0 ≤ r1) (h11 : r1 < 1) (h20 : 0 ≤ r2)
    (h21 : r2 < 1) :
    ∃ q, generateQuestion tables false r1 r2 r3 = some q ∧
      q.type = QuestionType.multiplication ∧ q.base ∈ tables ∧
      1 ≤ q.other ∧ q.other ≤ 12 := by
  obtain ⟨b, hb, hmem⟩ := pickRandom_spec ht h10 h11
  obtain ⟨ho1, ho2⟩ := randomInt_one_twelve h20 h21
  refine ⟨{ type := QuestionType.multiplication, base := b
            other := randomInt 1 12 r2
            questionText := toString b ++ " × " ++
              toString (randomInt 1 12 r2) ++ " = ______"
            answer := b * randomInt 1 12 r2 }, ?_, rfl, hmem, ho1, ho2⟩
  simp only [generateQuestion, hb]
  rw [if_neg (by simp)]

/-- The generation loop with division disabled succeeds on any draw list
whose first two components are valid, producing one multiplication question
per draw. -/
theorem generateWorksheet_spec (tables : List ℤ) (ht : tables ≠ []) :
    ∀ draws : List (ℚ × ℚ × ℚ),
      (∀ d ∈ draws, (0 ≤ d.1 ∧ d.1 < 1) ∧ (0 ≤ d.2.1 ∧ d.2.1 < 1)) →
      ∃ qs, generateWorksheet tables false draws = some qs ∧
        qs.length = draws.length ∧
        ∀ q ∈ qs, q.type = QuestionType.multiplication ∧ q.base ∈ tables ∧
          1 ≤ q.other ∧ q.other ≤ 12 := by
  intro draws
  induction draws with
  | nil => exact fun _ => ⟨[], rfl, rfl, by simp⟩
  | cons d rest ih =>
      intro hd
      obtain ⟨⟨h10, h11⟩, h20, h21⟩ := hd d (List.mem_cons_self d rest)
      obtain ⟨q, hq, hqm, hqb, ho1, ho2⟩ :=
        generateQuestion_mult_spec d.2.2 ht h10 h11 h20 h21
      obtain ⟨qs, hqs, hlen, hall⟩ :=
        ih (fun x hx => hd x (List.mem_cons_of_mem d hx))
      refine ⟨q :: qs, ?_, by simp [hlen], ?_⟩
      · show generateWorksheet tables false (d :: rest) = some (q :: qs)
        simp only [generateWorksheet, hq, hqs]
      · intro p hp
        rcases List.mem_cons.mp hp with rfl | hp'
        · exact ⟨hqm, hqb, ho1, ho2⟩
        · exact hall p hp'

/-- C8: for every non-empty table selection and every draw list of length 1
to 99 with valid random values, generation with division disabled produces
exactly one question per draw, each a multiplication question whose base is
one of the selected tables and whose operand lies in `[1, 12]`. -/
theorem worksheet_generation_mult_only :
    ∀ (selectedTables : List ℤ) (draws : List (ℚ × ℚ × ℚ)),
      selectedTables ≠ [] → 1 ≤ draws.length → draws.length ≤ 99 →
      (∀ d ∈ draws, (0 ≤ d.1 ∧ d.1 < 1) ∧ (0 ≤ d.2.1 ∧ d.2.1 < 1)) →
      ∃ qs, generateWorksheet selectedTables false draws = some qs ∧
        qs.length = draws.length ∧
        ∀ q ∈ qs, q.type = QuestionType.multiplication ∧
          q.base ∈ selectedTables ∧ 1 ≤ q.other ∧ q.other ≤ 12 :=
  fun tables draws ht _ _ hd => generateWorksheet_spec tables ht draws hd

/-- Witness for C8: tables 2, 5, 10 and ten zero draw triples. -/
theorem worksheet_generation_mult_only_witness :
    ([2, 5, 10] : List ℤ) ≠ [] ∧
    1 ≤ (List.replicate 10 ((0 : ℚ), (0 : ℚ), (0 : ℚ))).length ∧
    (List.replicate 10 ((0 : ℚ), (0 : ℚ), (0 : ℚ))).length ≤ 99 ∧
    ∃ qs, generateWorksheet [2, 5, 10] false
        (List.replicate 10 ((0 : ℚ), (0 : ℚ), (0 : ℚ))) = some qs ∧
      qs.length = (List.replicate 10 ((0 : ℚ), (0 : ℚ), (0 : ℚ))).length ∧
      ∀ q ∈ qs, q.type = QuestionType.multiplication ∧
        q.base ∈ ([2, 5, 10] : List ℤ) ∧ 1 ≤ q.other ∧ q.other ≤ 12 :=
  ⟨by simp, by simp, by simp,
   worksheet_generation_mult_only [2, 5, 10]
     (List.replicate 10 ((0 : ℚ), (0 : ℚ), (0 : ℚ))) (by simp) (by simp)
     (by simp)
     (by intro d hd; rw [List.eq_of_mem_replicate hd]; simp)⟩

/-- C10: for every non-empty array and draw `r` in `[0,1)` the index
`Math.floor(r * length)` lies in `[0, length - 1]` and the array access
succeeds; `randomInt 1 12` returns an integer in `[1, 12]` for draws in
`[0,1)`; and `generateQuestion` is total under the non-empty-selection
precondition. -/
theorem random_index_in_bounds :
    ∀ (array : List ℤ) (r : ℚ), array ≠ [] → 0 ≤ r → r < 1 →
      (0 ≤ ⌊r * (array.length : ℚ)⌋ ∧
       ⌊r * (array.length : ℚ)⌋ ≤ (array.length : ℤ) - 1 ∧
       (pickRandom array r).isSome = true) ∧
      (∀ r2 : ℚ, 0 ≤ r2 → r2 < 1 →
        1 ≤ randomInt 1 12 r2 ∧ randomInt 1 12 r2 ≤ 12) ∧
      (∀ (includeDivision : Bool) (r2 r3 : ℚ),
        (generateQuestion array includeDivision r r2 r3).isSome = true) := by
  intro arr r h hr0 hr1
  have hlen : 0 < arr.length := List.length_pos.mpr h
  obtain ⟨hf0, hflt⟩ := floor_index_bounds hlen hr0 hr1
  obtain ⟨b, hb, -⟩ := pickRandom_spec h hr0 hr1
  refine ⟨⟨hf0, by omega, by rw [hb]; rfl⟩,
    fun r2 a b' => randomInt_one_twelve a b', ?_⟩
  intro incDiv r2 r3
  simp only [generateQuestion, hb]
  split <;> rfl

/-- Witness for C10 on the array 2, 5, 10 with draw 0. -/
theorem random_index_in_bounds_witness :
    ([2, 5, 10] : List ℤ) ≠ [] ∧ (0 : ℚ) ≤ 0 ∧ (0 : ℚ) < 1 ∧
    ((0 ≤ ⌊(0 : ℚ) * ((([2, 5, 10] : List ℤ)).length : ℚ)⌋ ∧
      ⌊(0 : ℚ) * ((([2, 5, 10] : List ℤ)).length : ℚ)⌋ ≤
        ((([2, 5, 10] : List ℤ)).length : ℤ) - 1 ∧
      (pickRandom [2, 5, 10] 0).isSome = true) ∧
     (∀ r2 : ℚ, 0 ≤ r2 → r2 < 1 →
       1 ≤ randomInt 1 12 r2 ∧ randomInt 1 12 r2 ≤ 12) ∧
     (∀ (includeDivision : Bool) (r2 r3 : ℚ),
       (generateQuestion [2, 5, 10] includeDivision 0 r2 r3).isSome = true)) :=
  ⟨by simp, le_refl 0, zero_lt_one,
   random_index_in_bounds [2, 5, 10] 0 (by simp) (le_refl 0) zero_lt_one⟩

end TimesTable
